import Mathlib

/-!
Verification development for the ECH scenario simulation engine
(`backend/scenario_engine.py`, `backend/app.py`, `backend/models.py`).

The engine is embedded shallowly over exact rational arithmetic:
Python floats become `ℚ`, Python dicts become ordered association
lists (`List (String × _)`), fallible Python arithmetic (true division,
which raises `ZeroDivisionError` on a zero denominator) becomes
`Option`-valued division, and the NumPy global random generator is
modelled by an explicit `(seed, counter)` state together with an
abstract family `g : ℕ → ℕ → ℚ` of unit-normal draws (`g seed k` is the
k-th standard-normal value produced after `np.random.seed seed`).
Irrational library functions (`np.sqrt`, and `np.std`'s final square
root) are abstracted by a function argument `sqrtQ`, constrained only
where a property needs it (nonnegativity on nonnegative inputs).
-/

namespace ECH

/-- A value stored in a scenario parameter dict: the catalog holds
numbers everywhere except `region_affected`, which is a string. -/
inductive PVal where
  | num (q : ℚ)
  | str (s : String)
deriving DecidableEq, Repr

/-- A parameter dict, in insertion order. -/
abbrev Params := List (String × PVal)

/-- Python dict lookup `d[k]` / `d.get(k)`. -/
def getVal {α : Type} (k : String) : List (String × α) → Option α
  | [] => none
  | (k', v) :: rest => if k = k' then some v else getVal k rest

/-- Python dict assignment `d[k] = v` for a key already present
(keeps insertion order, as CPython dicts do). -/
def setKey {α : Type} (k : String) (v : α) : List (String × α) → List (String × α)
  | [] => []
  | (k', v') :: rest => if k' = k then (k', v) :: rest else (k', v') :: setKey k v rest

/-- `apply_scenario` lines 66-71: `params = scenario['parameters'].copy()`
then, for each `(key, value)` of `custom_params`, `params[key] = value`
only `if key in params`. -/
def resolveParams {α : Type} (defaults custom : List (String × α)) : List (String × α) :=
  match custom with
  | [] => defaults
  | kv :: rest =>
    resolveParams (if (getVal kv.1 defaults).isSome then setKey kv.1 kv.2 defaults else defaults)
      rest

/-- `params.get(key, d)` where the call site uses the value as a number. -/
def getNum (params : Params) (key : String) (d : ℚ) : ℚ :=
  match getVal key params with
  | some (.num q) => q
  | some (.str _) => d
  | none => d

/-- `params.get(key, d)` where the call site uses the value as a string. -/
def getStr (params : Params) (key : String) (d : String) : String :=
  match getVal key params with
  | some (.str s) => s
  | some (.num _) => d
  | none => d

/-- Round-half-to-even to an integer, the rounding used by Python's
built-in `round`. -/
def rhe (q : ℚ) : ℤ :=
  if q - ⌊q⌋ < 1/2 then ⌊q⌋
  else if 1/2 < q - ⌊q⌋ then ⌊q⌋ + 1
  else if 2 ∣ ⌊q⌋ then ⌊q⌋ else ⌊q⌋ + 1

/-- Python `round(x, n)` over exact rationals. -/
def pyRound (n : ℕ) (x : ℚ) : ℚ := (rhe (x * 10 ^ n) : ℚ) / 10 ^ n

lemma floor_le_rhe (q : ℚ) : ⌊q⌋ ≤ rhe q := by
  unfold rhe; split_ifs <;> omega

lemma rhe_le_floor_add_one (q : ℚ) : rhe q ≤ ⌊q⌋ + 1 := by
  unfold rhe; split_ifs <;> omega

lemma rhe_mono {x y : ℚ} (h : x ≤ y) : rhe x ≤ rhe y := by
  rcases lt_or_eq_of_le (Int.floor_le_floor h) with hf | hf
  · calc rhe x ≤ ⌊x⌋ + 1 := rhe_le_floor_add_one x
      _ ≤ ⌊y⌋ := by omega
      _ ≤ rhe y := floor_le_rhe y
  · unfold rhe
    rw [hf]
    split_ifs <;> first | omega | linarith

lemma pyRound_mono (n : ℕ) {x y : ℚ} (h : x ≤ y) : pyRound n x ≤ pyRound n y := by
  unfold pyRound
  have h10 : (0:ℚ) < 10 ^ n := by positivity
  have hr : (rhe (x * 10 ^ n) : ℚ) ≤ (rhe (y * 10 ^ n) : ℚ) := by
    exact_mod_cast rhe_mono (by nlinarith)
  exact div_le_div_of_nonneg_right hr h10.le

/-! ## Effect calculation (`_calculate_price_effects` and the 16 logic handlers) -/

/-- A per-region effect mapping, in dict insertion order. -/
abbrev EffectVec := List (String × ℚ)

/-- `self.regions` (line 45). -/
def regions : List String := ["us_ech", "eu_ech", "asia_ech", "china_ech"]

/-- Python true division: raises `ZeroDivisionError` when the
denominator is zero. -/
def qdiv (a b : ℚ) : Option ℚ := if b = 0 then none else some (a / b)

/-- `_logic_demand_growth` (lines 132-150). -/
def logic_demand_growth (params : Params) : Option EffectVec :=
  let growth := getNum params "demand_growth_rate" (33/1000)
  let elasticity := getNum params "price_elasticity" (6/10)
  let duration_years := getNum params "duration_months" 24 / 12
  let cumulative_growth := growth * duration_years
  let price_effect := cumulative_growth * elasticity
  some [("us_ech", price_effect * (9/10)), ("eu_ech", price_effect * 1),
        ("asia_ech", price_effect * (11/10)), ("china_ech", price_effect * (115/100))]

/-- `_logic_apac_growth` (lines 152-168). -/
def logic_apac_growth (params : Params) : Option EffectVec :=
  let premium := getNum params "apac_growth_premium" (2/100)
  let spillover := getNum params "global_spillover" (3/10)
  let duration_years := getNum params "duration_months" 18 / 12
  let apac_effect := premium * duration_years * (6/10)
  let global_effect := apac_effect * spillover * (59/100)
  some [("us_ech", global_effect), ("eu_ech", global_effect * (11/10)),
        ("asia_ech", apac_effect), ("china_ech", apac_effect * (11/10))]

/-- `_logic_bio_adoption` (lines 170-185). -/
def logic_bio_adoption (params : Params) : Option EffectVec :=
  let adoption := getNum params "bio_adoption_rate" (4/100)
  let glycerine_cost := getNum params "glycerine_cost_factor" 1
  let duration_years := getNum params "duration_months" 36 / 12
  let bio_effect := adoption * duration_years
  some [("us_ech", bio_effect * (2/100)), ("eu_ech", bio_effect * glycerine_cost * (8/100)),
        ("asia_ech", bio_effect * (-(5/100))), ("china_ech", bio_effect * (-(6/100)))]

/-- `_logic_epoxy_demand` (lines 187-203). -/
def logic_epoxy_demand (params : Params) : Option EffectVec :=
  let epoxy_growth := getNum params "epoxy_demand_growth" (5/100)
  let infra_boost := getNum params "infrastructure_boost" 0
  let duration_years := getNum params "duration_months" 12 / 12
  let total_demand := (epoxy_growth + infra_boost) * (86/100)
  let price_effect := total_demand * duration_years * (7/10)
  some [("us_ech", price_effect * (9/10)), ("eu_ech", price_effect * 1),
        ("asia_ech", price_effect * (11/10)), ("china_ech", price_effect * (115/100))]

/-- `_logic_feedstock_shift` (lines 207-220). -/
def logic_feedstock_shift (params : Params) : Option EffectVec :=
  let glycerine_shift := getNum params "glycerine_share_change" (1/10)
  let propylene_change := getNum params "propylene_price_change" 0
  let glycerine_change := getNum params "glycerine_price_change" 0
  some [("us_ech", propylene_change * (4/10) + glycerine_shift * (2/100)),
        ("eu_ech", propylene_change * (35/100) + glycerine_change * (15/100)
          + glycerine_shift * (5/100)),
        ("asia_ech", glycerine_change * (4/10) - glycerine_shift * (4/100)),
        ("china_ech", glycerine_change * (45/100) - glycerine_shift * (5/100))]

/-- `_logic_eu_regulatory` (lines 222-237). -/
def logic_eu_regulatory (params : Params) : Option EffectVec :=
  let supply_cut := getNum params "supply_reduction" (15/100)
  let compliance := getNum params "compliance_cost" (1/10)
  let duration_years := getNum params "duration_months" 36 / 12
  let eu_effect := (supply_cut * (5/10) + compliance) * min duration_years 2
  some [("us_ech", supply_cut * (2/100)), ("eu_ech", eu_effect),
        ("asia_ech", -supply_cut * (2/100)), ("china_ech", -supply_cut * (3/100))]

/-- `_logic_asian_advantage` (lines 239-254). -/
def logic_asian_advantage (params : Params) : Option EffectVec :=
  let cost_advantage := getNum params "glycerine_cost_advantage" (15/100)
  let intensity := getNum params "competitive_intensity" (5/10)
  let duration_years := getNum params "duration_months" 18 / 12
  let asia_effect := -cost_advantage * intensity * min duration_years (15/10)
  some [("us_ech", -cost_advantage * intensity * (3/10)),
        ("eu_ech", -cost_advantage * intensity * (2/10)),
        ("asia_ech", asia_effect), ("china_ech", asia_effect * (11/10))]

/-- `_logic_plant_shutdown` (lines 258-292): the effects dict is created
with all four regions at 0.0 and then selectively overwritten, so its
key order is always the canonical one. -/
def logic_plant_shutdown (params : Params) : Option EffectVec :=
  let offline := getNum params "capacity_offline" (1/10)
  let region := getStr params "region_affected" "eu"
  let duration_months := getNum params "duration_months" 6
  let direct_effect := offline * (17/10)
  let duration_factor := min (duration_months / 6) (15/10)
  some (if region = "eu" then
          [("us_ech", direct_effect * (2/10)), ("eu_ech", direct_effect * duration_factor),
           ("asia_ech", direct_effect * (15/100)), ("china_ech", direct_effect * (1/10))]
        else if region = "us" then
          [("us_ech", direct_effect * duration_factor), ("eu_ech", direct_effect * (15/100)),
           ("asia_ech", 0), ("china_ech", 0)]
        else if region = "asia" ∨ region = "china" then
          [("us_ech", direct_effect * (5/100)), ("eu_ech", direct_effect * (1/10)),
           ("asia_ech", direct_effect * duration_factor * (9/10)),
           ("china_ech", direct_effect * duration_factor)]
        else [("us_ech", 0), ("eu_ech", 0), ("asia_ech", 0), ("china_ech", 0)])

/-- `_logic_supply_disruption` (lines 294-310): `recovery / (duration * 2)`
is Python true division and raises on `duration = 0`. -/
def logic_supply_disruption (params : Params) : Option EffectVec :=
  let severity := getNum params "disruption_severity" (2/10)
  let recovery := getNum params "recovery_months" 4
  let duration := getNum params "duration_months" 8
  let peak_effect := severity * (15/10)
  (qdiv recovery (duration * 2)).map fun frac =>
    let avg_effect := peak_effect * (1 - frac)
    [("us_ech", avg_effect * (8/10)), ("eu_ech", avg_effect * 1),
     ("asia_ech", avg_effect * (9/10)), ("china_ech", avg_effect * (85/100))]

/-- `_logic_capacity_expansion` (lines 312-328): `ramp_up / (duration * 2)`
raises on `duration = 0`. -/
def logic_capacity_expansion (params : Params) : Option EffectVec :=
  let addition := getNum params "capacity_addition" (15/100)
  let ramp_up := getNum params "ramp_up_months" 6
  let duration := getNum params "duration_months" 24
  (qdiv ramp_up (duration * 2)).map fun frac =>
    let effective_addition := addition * (1 - frac)
    let price_effect := -effective_addition * (8/10)
    [("us_ech", price_effect * (4/10)), ("eu_ech", price_effect * (5/10)),
     ("asia_ech", price_effect * 1), ("china_ech", price_effect * (11/10))]

/-- `_logic_americas_stability` (lines 332-344). -/
def logic_americas_stability (params : Params) : Option EffectVec :=
  let isolation := getNum params "isolation_factor" (7/10)
  let pressure := getNum params "competitive_pressure" 0
  some [("us_ech", -pressure * (5/10)), ("eu_ech", (2/100) * (1 - isolation)),
        ("asia_ech", (3/100) * (1 - isolation)), ("china_ech", (3/100) * (1 - isolation))]

/-- `_logic_europe_elevation` (lines 346-362). -/
def logic_europe_elevation (params : Params) : Option EffectVec :=
  let reduction := getNum params "capacity_reduction" (12/100)
  let import_dep := getNum params "import_dependency" (2/10)
  let duration_years := getNum params "duration_months" 18 / 12
  let eu_effect := (reduction * (15/10) + import_dep * (3/10)) * min duration_years (15/10)
  some [("us_ech", reduction * (1/10)), ("eu_ech", eu_effect),
        ("asia_ech", -reduction * (5/100)), ("china_ech", -reduction * (5/100))]

/-- `_logic_apac_pressure` (lines 364-379). -/
def logic_apac_pressure (params : Params) : Option EffectVec :=
  let feedstock := getNum params "feedstock_pressure" (8/100)
  let shutdown := getNum params "shutdown_impact" (5/100)
  let duration_years := getNum params "duration_months" 12 / 12
  let combined := (feedstock + shutdown * (15/10)) * min duration_years 1
  some [("us_ech", combined * (15/100)), ("eu_ech", combined * (2/10)),
        ("asia_ech", combined), ("china_ech", combined * (11/10))]

/-- `_logic_asian_undercut` (lines 383-399). -/
def logic_asian_undercut (params : Params) : Option EffectVec :=
  let discount := getNum params "price_discount" (1/10)
  let share_target := getNum params "market_share_target" (5/100)
  let duration_years := getNum params "duration_months" 18 / 12
  let asia_cut := -discount * min duration_years (15/10)
  let pressure := discount * share_target * 5
  some [("us_ech", -pressure * (6/10)), ("eu_ech", -pressure * (5/10)),
        ("asia_ech", asia_cut), ("china_ech", asia_cut * (11/10))]

/-- `_logic_eu_constraints` (lines 401-416). -/
def logic_eu_constraints (params : Params) : Option EffectVec :=
  let constraint := getNum params "supply_constraint" (15/100)
  let power := getNum params "pricing_power" (8/10)
  let duration_years := getNum params "duration_months" 24 / 12
  let eu_increase := constraint * power * min duration_years 2
  some [("us_ech", constraint * (5/100)), ("eu_ech", eu_increase),
        ("asia_ech", -constraint * (3/100)), ("china_ech", -constraint * (4/100))]

/-- `_logic_us_stable` (lines 418-430). -/
def logic_us_stable (_params : Params) : Option EffectVec :=
  some [("us_ech", 0), ("eu_ech", 1/100), ("asia_ech", 15/1000), ("china_ech", 2/100)]

/-- `_logic_default` (lines 432-434): `{r: 0.0 for r in self.regions}`. -/
def logic_default (_params : Params) : Option EffectVec :=
  some (regions.map fun r => (r, 0))

/-- The keys of the `handlers` dispatch dict (lines 108-125). -/
def knownTags : List String :=
  ["demand_growth", "apac_growth", "bio_adoption", "epoxy_demand", "feedstock_shift",
   "eu_regulatory", "asian_advantage", "plant_shutdown", "supply_disruption",
   "capacity_expansion", "americas_stability", "europe_elevation", "apac_pressure",
   "asian_undercut", "eu_constraints", "us_stable"]

/-- `_calculate_price_effects` (lines 100-128):
`handlers.get(logic, self._logic_default)` followed by `handler(params)`. -/
def calculatePriceEffects (logic : String) (params : Params) : Option EffectVec :=
  if logic = "demand_growth" then logic_demand_growth params
  else if logic = "apac_growth" then logic_apac_growth params
  else if logic = "bio_adoption" then logic_bio_adoption params
  else if logic = "epoxy_demand" then logic_epoxy_demand params
  else if logic = "feedstock_shift" then logic_feedstock_shift params
  else if logic = "eu_regulatory" then logic_eu_regulatory params
  else if logic = "asian_advantage" then logic_asian_advantage params
  else if logic = "plant_shutdown" then logic_plant_shutdown params
  else if logic = "supply_disruption" then logic_supply_disruption params
  else if logic = "capacity_expansion" then logic_capacity_expansion params
  else if logic = "americas_stability" then logic_americas_stability params
  else if logic = "europe_elevation" then logic_europe_elevation params
  else if logic = "apac_pressure" then logic_apac_pressure params
  else if logic = "asian_undercut" then logic_asian_undercut params
  else if logic = "eu_constraints" then logic_eu_constraints params
  else if logic = "us_stable" then logic_us_stable params
  else logic_default params

/-- Scenario 6's default parameters (`models.py`, scenario id 6). -/
def scenario6Params : Params :=
  [("supply_reduction", .num (15/100)), ("compliance_cost", .num (1/10)),
   ("duration_months", .num 36)]

/-- `apply_scenario` line 92: reported `price_effects` are
`round(v * 100, 2)` per region. -/
def priceEffectsReport (effects : EffectVec) : List (String × ℚ) :=
  effects.map fun kv => (kv.1, pyRound 2 (kv.2 * 100))

/-! ## Time-phase envelope and `_apply_effects` (lines 438-477)

`duration_months` resolves to a Python number; `duration // 3` is floor
division, modelled as `⌊duration / 3⌋`, and `int(total_periods * 0.2)`
as `total_periods / 5` (exact-arithmetic floor of `0.2 * total_periods`).
-/

/-- The per-index effect computed by the loop body of `_apply_effects`
(lines 462-470), for a loop index `i` (the loop only visits
`start ≤ i < total`). -/
def currentEffect (effect duration : ℚ) (start total : ℕ) (i : ℕ) : ℚ :=
  let ramp : ℤ := min 6 ⌊duration / 3⌋
  let e : ℚ := min ((start : ℚ) + duration) (total : ℚ)
  if (i : ℤ) < (start : ℤ) + ramp then
    effect * (((i : ℚ) - (start : ℚ) + 1) / (ramp : ℚ))
  else if (i : ℚ) < e then effect
  else effect * (1 - min (((i : ℚ) - e) / 12) 1 * (4/10))

/-- The same loop body with Python's fallible division made explicit:
`progress = (i - start + 1) / ramp` raises `ZeroDivisionError` when
`ramp = 0`. -/
def currentEffectChecked (effect duration : ℚ) (start total : ℕ) (i : ℕ) : Option ℚ :=
  let ramp : ℤ := min 6 ⌊duration / 3⌋
  let e : ℚ := min ((start : ℚ) + duration) (total : ℚ)
  if (i : ℤ) < (start : ℤ) + ramp then
    (qdiv ((i : ℚ) - (start : ℚ) + 1) (ramp : ℚ)).map fun progress => effect * progress
  else if (i : ℚ) < e then some effect
  else some (effect * (1 - min (((i : ℚ) - e) / 12) 1 * (4/10)))

/-- One region's pass of the `_apply_effects` loop (lines 449-475):
`result[i] = baseline[i]` for `i < start` (the loop never touches those
indices), and `result[i] = baseline[i] * (1 + current_effect + noise)`
for `start ≤ i`, where `noise` is the `(i - start)`-th normal draw made
for this region. -/
def applyEffectsRegionGo (effect duration : ℚ) (start total : ℕ) (noise : ℕ → ℚ) :
    ℕ → List ℚ → List ℚ
  | _, [] => []
  | i, x :: rest =>
    (if i < start then x
     else x * (1 + currentEffect effect duration start total i + noise (i - start))) ::
      applyEffectsRegionGo effect duration start total noise (i + 1) rest

/-- One region of `_apply_effects`, starting from index 0. -/
def applyEffectsRegion (effect duration : ℚ) (start total : ℕ) (noise : ℕ → ℚ)
    (baseline : List ℚ) : List ℚ :=
  applyEffectsRegionGo effect duration start total noise 0 baseline

/-- NumPy's global generator state: the seed last passed to
`np.random.seed`, and how many draws have been consumed since. -/
abbrev RngState := ℕ × ℕ

/-- `_apply_effects` line 446: `int(abs(hash(frozenset(params.items())))
% 100000)`; `pyHashAbs` abstracts `abs(hash(frozenset(...)))`, a pure
function of the resolved parameter set (frozenset hashing is
order-independent within one interpreter process). -/
def seedOf (pyHashAbs : Params → ℕ) (params : Params) : ℕ :=
  pyHashAbs params % 100000

/-- The region loop of `_apply_effects` (lines 449-475): regions missing
from `self.prices` are skipped and consume no draws; each processed
region consumes `total - start` draws (`σ = 0.008` each), continuing the
single stream seeded once before the loop. -/
def applyEffectsLoop (g : ℕ → ℕ → ℚ) (seed : ℕ) (prices : List (String × List ℚ))
    (effects : EffectVec) (duration : ℚ) (start total : ℕ) :
    List String → ℕ → List (String × List ℚ) × ℕ
  | [], c => ([], c)
  | r :: rest, c =>
    match getVal r prices with
    | none => applyEffectsLoop g seed prices effects duration start total rest c
    | some baseline =>
      let eff := (getVal r effects).getD 0
      let sim := applyEffectsRegion eff duration start total
        (fun k => (8/1000) * g seed (c + k)) baseline
      let out := applyEffectsLoop g seed prices effects duration start total rest
        (c + (total - start))
      ((r, sim) :: out.1, out.2)

/-- `_apply_effects` (lines 438-477).  `r0` is the inherited NumPy
generator state; line 447 (`np.random.seed(seed)`) resets it before any
draw, so the output cannot depend on `r0`. -/
def applyEffects (g : ℕ → ℕ → ℚ) (pyHashAbs : Params → ℕ) (prices : List (String × List ℚ))
    (total : ℕ) (effects : EffectVec) (params : Params) (_r0 : RngState) :
    List (String × List ℚ) × RngState :=
  let duration := getNum params "duration_months" 12
  let seed := seedOf pyHashAbs params
  let start := total / 5
  let out := applyEffectsLoop g seed prices effects duration start total regions 0
  (out.1, (seed, out.2))

/-! ## Fallback forecast (`_generate_simple_forecast`, lines 668-744) -/

/-- `np.mean` over exact rationals. -/
def listMean (l : List ℚ) : ℚ := l.sum / l.length

/-- The radicand of `np.std` (population variance, `ddof = 0`);
`np.std l = sqrtQ (listVar l)`. -/
def listVar (l : List ℚ) : ℚ := listMean (l.map fun x => (x - listMean l) ^ 2)

/-- Python `l[-n:]`. -/
def lastN {α : Type} (n : ℕ) (l : List α) : List α := l.drop (l.length - n)

/-- `_estimate_seasonality` (lines 746-771): `None` if fewer than two
full 12-month years; otherwise monthly means across complete years,
centred and scaled by 0.05. -/
def estimateSeasonality (prices : List ℚ) : Option (List ℚ) :=
  if prices.length < 24 then none
  else
    let nYears := prices.length / 12
    let truncated := prices.take (nYears * 12)
    let seasonal := (List.range 12).map fun m =>
      ((List.range nYears).map fun y => truncated.getD (y * 12 + m) 0).sum / nYears
    let mu := listMean seasonal
    some (seasonal.map fun s => (s - mu) * (5/100))

/-- The forecast loop of `_generate_simple_forecast` (lines 701-725);
one step per future month, producing `(point, lower_95, upper_95)`.
`g42 i` is the i-th unit-normal draw after this region's
`np.random.seed(42)`; `sqrtQ` models `np.sqrt`. -/
def forecastSteps (g42 : ℕ → ℚ) (sqrtQ : ℚ → ℚ) (meanPrice stdPrice trend : ℚ)
    (seasonality : Option (List ℚ)) (lastMonthIdx : ℕ) :
    ℕ → ℕ → ℚ → List (ℚ × ℚ × ℚ)
  | 0, _, _ => []
  | m + 1, i, current =>
    let trendEffect := trend * (85/100) ^ i
    let reversion := (meanPrice - current) * (8/100)
    let seasonIdx := (lastMonthIdx + i) % 12
    let seasonal := match seasonality with
      | some s => s.getD seasonIdx 0
      | none => 0
    let current' := current + trendEffect + reversion + seasonal
    let noise := stdPrice * (3/100) * g42 i
    let point := current' + noise
    let uncertainty := stdPrice * sqrtQ ((i : ℚ) + 1) * (2/10)
    (pyRound 4 point, pyRound 4 (point - (196/100) * uncertainty),
      pyRound 4 (point + (196/100) * uncertainty)) ::
      forecastSteps g42 sqrtQ meanPrice stdPrice trend seasonality lastMonthIdx m (i + 1) current'

/-- One region of `_generate_simple_forecast` (lines 675-731). -/
def simpleForecastRegion (g42 : ℕ → ℚ) (sqrtQ : ℚ → ℚ) (prices : List ℚ) (months : ℕ) :
    List (ℚ × ℚ × ℚ) :=
  let lastPrice := prices.getLastD 0
  let meanPrice := listMean prices
  let stdPrice := sqrtQ (listVar prices)
  let last6 := lastN 6 prices
  let trend := if 1 < last6.length then (last6.getLastD 0 - last6.headD 0) / 6 else 0
  let seasonality := estimateSeasonality prices
  let lastMonthIdx := prices.length % 12
  forecastSteps g42 sqrtQ meanPrice stdPrice trend seasonality lastMonthIdx months 0 lastPrice

/-- A calendar date, for the `%Y-%m-%d` period labels. -/
structure Date where
  year : ℤ
  month : ℕ
  day : ℕ
deriving DecidableEq, Repr

/-- Gregorian leap-year rule. -/
def isLeap (y : ℤ) : Bool := (y % 4 == 0 && y % 100 != 0) || y % 400 == 0

/-- Days in a month. -/
def daysInMonth (y : ℤ) (m : ℕ) : ℕ :=
  if m = 2 then (if isLeap y then 29 else 28)
  else if m = 4 ∨ m = 6 ∨ m = 9 ∨ m = 11 then 30
  else 31

/-- `dateutil.relativedelta(months=k)`: advance by whole calendar
months, clamping the day to the target month's length. -/
def addMonths (d : Date) (k : ℕ) : Date :=
  let t : ℕ := d.month - 1 + k
  let y : ℤ := d.year + t / 12
  let m : ℕ := t % 12 + 1
  ⟨y, m, min d.day (daysInMonth y m)⟩

/-- The forecast `dates` array (lines 733-738 and, identically, lines
597-602): `last_date + relativedelta(months=i+1)` for `i < months`. -/
def forecastDates (lastDate : Date) (months : ℕ) : List Date :=
  (List.range months).map fun i => addMonths lastDate (i + 1)

/-- `_generate_simple_forecast` over all simulated regions, with the
NumPy generator state threaded: each region re-seeds to 42 (line 699)
and then consumes `months` draws, so the incoming state `r0` is dead
unless there are no regions at all. -/
def generateSimpleForecastR (g : ℕ → ℕ → ℚ) (sqrtQ : ℚ → ℚ)
    (simulated : List (String × List ℚ)) (months : ℕ) (r0 : RngState) :
    List (String × List (ℚ × ℚ × ℚ)) × RngState :=
  (simulated.map fun rv => (rv.1, simpleForecastRegion (fun k => g 42 k) sqrtQ rv.2 months),
   if simulated.isEmpty then r0 else (42, months))

/-- The Prophet branch's per-region post-processing (lines 582-589):
`prophet_forecast.tail(months)` then 4-digit rounding of `yhat`,
`yhat_lower`, `yhat_upper`.  A row is `(yhat, yhat_lower, yhat_upper)`
as produced by the external library. -/
def prophetExtractRegion (rows : List (ℚ × ℚ × ℚ)) (months : ℕ) : List (ℚ × ℚ × ℚ) :=
  (rows.drop (rows.length - months)).map fun r =>
    (pyRound 4 r.1, pyRound 4 r.2.1, pyRound 4 r.2.2)

/-! ## Orchestration and the API layer -/

/-- The scenario catalog abstracted to what the engine reads:
`logic` tag and default parameters (`models.py`). -/
def applyScenarioCore (g : ℕ → ℕ → ℚ) (sqrtQ : ℚ → ℚ) (pyHashAbs : Params → ℕ)
    (catalog : ℕ → Option (String × Params)) (prices : List (String × List ℚ)) (total : ℕ)
    (sid : ℕ) (custom : Params) (r0 : RngState) :
    Option (List (String × List ℚ) × List (String × List (ℚ × ℚ × ℚ))) × RngState :=
  match catalog sid with
  | none => (none, r0)
  | some (logic, defaults) =>
    let params := resolveParams defaults custom
    match calculatePriceEffects logic params with
    | none => (none, r0)
    | some effects =>
      let simOut := applyEffects g pyHashAbs prices total effects params r0
      let fcOut := generateSimpleForecastR g sqrtQ simOut.1 12 simOut.2
      (some (simOut.1, fcOut.1), fcOut.2)

/-- The names bound in `class ScenarioEngine` (`scenario_engine.py`):
the attribute table consulted by `engine.<name>` at the call sites in
`app.py`. -/
def scenarioEngineMethods : List String :=
  ["__init__", "apply_scenario", "_calculate_price_effects",
   "_logic_demand_growth", "_logic_apac_growth", "_logic_bio_adoption",
   "_logic_epoxy_demand", "_logic_feedstock_shift", "_logic_eu_regulatory",
   "_logic_asian_advantage", "_logic_plant_shutdown", "_logic_supply_disruption",
   "_logic_capacity_expansion", "_logic_americas_stability", "_logic_europe_elevation",
   "_logic_apac_pressure", "_logic_asian_undercut", "_logic_eu_constraints",
   "_logic_us_stable", "_logic_default", "_apply_effects", "_calculate_metrics",
   "_generate_forecast", "_generate_prophet_forecast", "_create_scenario_regressor",
   "_extend_scenario_regressor", "_generate_simple_forecast", "_estimate_seasonality",
   "get_forecast_components", "update_prophet_config"]

/-- Outcome of the `/api/compare` route, by HTTP status and message. -/
inductive ApiResp where
  | ok
  | invalidInput (msg : String)
  | serverError (msg : String)
deriving DecidableEq, Repr

/-- `compare_scenarios` in `app.py` (lines 92-116): empty list → 400;
more than 5 ids → 400; otherwise `engine.compare_scenarios(ids)` is
called inside `try`, and a missing attribute raises `AttributeError`,
caught by `except Exception` → 500. -/
def compareRoute (scenarioIds : List ℕ) : ApiResp :=
  if scenarioIds.isEmpty then .invalidInput "scenario_ids is required"
  else if 5 < scenarioIds.length then .invalidInput "Maximum 5 scenarios for comparison"
  else if scenarioEngineMethods.contains "compare_scenarios" then .ok
  else .serverError "Comparison error: AttributeError"

/-! ## Helper lemmas -/

lemma setKey_map_fst {α : Type} (k : String) (v : α) (l : List (String × α)) :
    (setKey k v l).map Prod.fst = l.map Prod.fst := by
  induction l with
  | nil => rfl
  | cons kv rest ih =>
    obtain ⟨a, b⟩ := kv
    by_cases h : a = k <;> simp [setKey, h, ih]

lemma getVal_setKey_ne {α : Type} {k k' : String} (h : k ≠ k') (v : α)
    (l : List (String × α)) : getVal k (setKey k' v l) = getVal k l := by
  induction l with
  | nil => rfl
  | cons kv rest ih =>
    obtain ⟨a, b⟩ := kv
    by_cases h1 : a = k'
    · subst h1
      simp [setKey, getVal, h, ih]
    · by_cases h2 : k = a <;> simp [setKey, getVal, h1, h2, ih]

lemma getVal_eq_none_iff {α : Type} (k : String) (l : List (String × α)) :
    getVal k l = none ↔ k ∉ l.map Prod.fst := by
  induction l with
  | nil => simp [getVal]
  | cons kv rest ih =>
    obtain ⟨a, b⟩ := kv
    by_cases h : k = a <;> simp [getVal, h, ih]

lemma resolveParams_map_fst {α : Type} :
    ∀ (custom defaults : List (String × α)),
      (resolveParams defaults custom).map Prod.fst = defaults.map Prod.fst := by
  intro custom
  induction custom with
  | nil => intro d; rfl
  | cons kv rest ih =>
    intro d
    rw [resolveParams, ih]
    split
    · exact setKey_map_fst kv.1 kv.2 d
    · rfl

lemma getVal_resolveParams_not_overridden {α : Type} :
    ∀ (custom defaults : List (String × α)) (k : String), k ∉ custom.map Prod.fst →
      getVal k (resolveParams defaults custom) = getVal k defaults := by
  intro custom
  induction custom with
  | nil => intro d k _; rfl
  | cons kv rest ih =>
    intro d k hk
    obtain ⟨a, b⟩ := kv
    simp only [List.map_cons, List.mem_cons, not_or] at hk
    rw [resolveParams, ih _ _ hk.2]
    split
    · exact getVal_setKey_ne hk.1 b d
    · rfl

lemma currentEffect_of_ramp {effect duration : ℚ} {s t i : ℕ}
    (h : (i : ℤ) < (s : ℤ) + min 6 ⌊duration / 3⌋) :
    currentEffect effect duration s t i =
      effect * (((i : ℚ) - (s : ℚ) + 1) / ((min 6 ⌊duration / 3⌋ : ℤ) : ℚ)) := by
  simp only [currentEffect]
  rw [if_pos h]

lemma currentEffect_of_plateau {effect duration : ℚ} {s t i : ℕ}
    (h1 : ¬ (i : ℤ) < (s : ℤ) + min 6 ⌊duration / 3⌋)
    (h2 : (i : ℚ) < min ((s : ℚ) + duration) (t : ℚ)) :
    currentEffect effect duration s t i = effect := by
  simp only [currentEffect]
  rw [if_neg h1, if_pos h2]

lemma currentEffect_of_decay {effect duration : ℚ} {s t i : ℕ}
    (h1 : ¬ (i : ℤ) < (s : ℤ) + min 6 ⌊duration / 3⌋)
    (h2 : ¬ (i : ℚ) < min ((s : ℚ) + duration) (t : ℚ)) :
    currentEffect effect duration s t i =
      effect * (1 - min (((i : ℚ) - min ((s : ℚ) + duration) (t : ℚ)) / 12) 1 * (4/10)) := by
  simp only [currentEffect]
  rw [if_neg h1, if_neg h2]

/-! ## Claim theorems -/

/-- C7: for every scenario defaults dict and every custom_params dict,
the resolved parameter set has exactly the defaults' keys (so unknown
override keys are silently ignored and never added), keys absent from
the defaults stay absent, and any default key not mentioned in
custom_params keeps its default value.  No error is possible: the
resolution is a total function. -/
theorem unknown_override_keys_ignored {α : Type} (defaults custom : List (String × α)) :
    (resolveParams defaults custom).map Prod.fst = defaults.map Prod.fst ∧
    (∀ k, getVal k defaults = none → getVal k (resolveParams defaults custom) = none) ∧
    (∀ k, k ∉ custom.map Prod.fst →
      getVal k (resolveParams defaults custom) = getVal k defaults) := by
  refine ⟨resolveParams_map_fst custom defaults, ?_, ?_⟩
  · intro k hk
    rw [getVal_eq_none_iff] at hk ⊢
    rw [resolveParams_map_fst custom defaults]
    exact hk
  · intro k hk
    exact getVal_resolveParams_not_overridden custom defaults k hk

/-- Witness for C7 at a concrete input: overriding scenario 6's defaults
with an unknown key `"bogus"` leaves the defaults unchanged and does not
introduce the key. -/
theorem unknown_override_keys_ignored_witness :
    getVal "bogus" (resolveParams scenario6Params [("bogus", PVal.num 1)]) = none ∧
    getVal "supply_reduction" (resolveParams scenario6Params [("bogus", PVal.num 1)]) =
      some (PVal.num (15/100)) := by
  constructor
  · exact (unknown_override_keys_ignored scenario6Params [("bogus", PVal.num 1)]).2.1
      "bogus" (by simp [scenario6Params, getVal])
  · rw [(unknown_override_keys_ignored scenario6Params [("bogus", PVal.num 1)]).2.2
      "supply_reduction" (by simp)]
    simp [scenario6Params, getVal]

/-- C3: with scenario 6's default parameters, `_logic_eu_regulatory`
computes `eu_effect = (0.15*0.5 + 0.10) * min(36/12, 2) = 0.35`, the
spillovers are `supply_cut*0.02` for `us_ech` and `-supply_cut*0.02`,
`-supply_cut*0.03` for `asia_ech`, `china_ech`, and the reported
`price_effects` entry for `eu_ech` is `round(0.35*100, 2) = 35.0`. -/
theorem eu_regulatory_default_effect :
    calculatePriceEffects "eu_regulatory" scenario6Params =
      some [("us_ech", (15/100 : ℚ) * (2/100)),
            ("eu_ech", ((15/100 : ℚ) * (5/10) + 10/100) * min ((36 : ℚ)/12) 2),
            ("asia_ech", -(15/100 : ℚ) * (2/100)),
            ("china_ech", -(15/100 : ℚ) * (3/100))] ∧
    ((15/100 : ℚ) * (5/10) + 10/100) * min ((36 : ℚ)/12) 2 = 35/100 ∧
    getVal "eu_ech" (priceEffectsReport
      ((calculatePriceEffects "eu_regulatory" scenario6Params).getD [])) = some 35 := by
  refine ⟨?_, by norm_num, ?_⟩
  · simp +decide [calculatePriceEffects, logic_eu_regulatory, scenario6Params, getNum, getVal]
    norm_num
  · simp +decide [calculatePriceEffects, logic_eu_regulatory, scenario6Params, getNum, getVal,
      priceEffectsReport]
    norm_num [pyRound, rhe]

/-- C8: the `/api/compare` route rejects an empty id list and a
6-element list with a 400 InvalidInput response; but a valid 5-element
list does NOT succeed: `ScenarioEngine` defines no `compare_scenarios`
attribute, so the delegation raises `AttributeError`, which the route's
`except Exception` turns into a 500 comparison error. -/
theorem compare_route_behavior :
    compareRoute [] = .invalidInput "scenario_ids is required" ∧
    compareRoute [1, 2, 3, 4, 5, 6] = .invalidInput "Maximum 5 scenarios for comparison" ∧
    compareRoute [1, 2, 3, 4, 5] = .serverError "Comparison error: AttributeError" := by
  refine ⟨rfl, rfl, ?_⟩
  simp +decide [compareRoute, scenarioEngineMethods]

/-- C5 (amended): for every logic tag and parameter set, whenever the
two variants that divide by `duration_months` (`supply_disruption`,
`capacity_expansion`) have a nonzero duration, the effect calculation
returns a mapping with exactly the four canonical region keys; and any
tag outside the fixed 16-variant dispatch table yields the zero vector
rather than an error.  (Unrestricted, the claim fails: see the
division-by-zero counterexample.) -/
theorem effect_vector_four_regions :
    (∀ (logic : String) (params : Params),
      (logic = "supply_disruption" → getNum params "duration_months" 8 ≠ 0) →
      (logic = "capacity_expansion" → getNum params "duration_months" 24 ≠ 0) →
      ∃ v, calculatePriceEffects logic params = some v ∧ v.map Prod.fst = regions) ∧
    (∀ (logic : String) (params : Params), logic ∉ knownTags →
      calculatePriceEffects logic params = some (regions.map fun r => (r, 0))) := by
  refine ⟨?_, ?_⟩
  intro logic params h1 h2
  simp only [calculatePriceEffects]
  by_cases t1 : logic = "demand_growth"
  · rw [if_pos t1]
    exact ⟨_, rfl, rfl⟩
  rw [if_neg t1]
  by_cases t2 : logic = "apac_growth"
  · rw [if_pos t2]
    exact ⟨_, rfl, rfl⟩
  rw [if_neg t2]
  by_cases t3 : logic = "bio_adoption"
  · rw [if_pos t3]
    exact ⟨_, rfl, rfl⟩
  rw [if_neg t3]
  by_cases t4 : logic = "epoxy_demand"
  · rw [if_pos t4]
    exact ⟨_, rfl, rfl⟩
  rw [if_neg t4]
  by_cases t5 : logic = "feedstock_shift"
  · rw [if_pos t5]
    exact ⟨_, rfl, rfl⟩
  rw [if_neg t5]
  by_cases t6 : logic = "eu_regulatory"
  · rw [if_pos t6]
    exact ⟨_, rfl, rfl⟩
  rw [if_neg t6]
  by_cases t7 : logic = "asian_advantage"
  · rw [if_pos t7]
    exact ⟨_, rfl, rfl⟩
  rw [if_neg t7]
  by_cases t8 : logic = "plant_shutdown"
  · rw [if_pos t8]
    simp only [logic_plant_shutdown]
    split_ifs <;> exact ⟨_, rfl, rfl⟩
  rw [if_neg t8]
  by_cases t9 : logic = "supply_disruption"
  · rw [if_pos t9]
    have hden : getNum params "duration_months" 8 * 2 ≠ 0 :=
      mul_ne_zero (h1 t9) two_ne_zero
    simp only [logic_supply_disruption, qdiv, if_neg hden, Option.map_some']
    exact ⟨_, rfl, rfl⟩
  rw [if_neg t9]
  by_cases t10 : logic = "capacity_expansion"
  · rw [if_pos t10]
    have hden : getNum params "duration_months" 24 * 2 ≠ 0 :=
      mul_ne_zero (h2 t10) two_ne_zero
    simp only [logic_capacity_expansion, qdiv, if_neg hden, Option.map_some']
    exact ⟨_, rfl, rfl⟩
  rw [if_neg t10]
  by_cases t11 : logic = "americas_stability"
  · rw [if_pos t11]
    exact ⟨_, rfl, rfl⟩
  rw [if_neg t11]
  by_cases t12 : logic = "europe_elevation"
  · rw [if_pos t12]
    exact ⟨_, rfl, rfl⟩
  rw [if_neg t12]
  by_cases t13 : logic = "apac_pressure"
  · rw [if_pos t13]
    exact ⟨_, rfl, rfl⟩
  rw [if_neg t13]
  by_cases t14 : logic = "asian_undercut"
  · rw [if_pos t14]
    exact ⟨_, rfl, rfl⟩
  rw [if_neg t14]
  by_cases t15 : logic = "eu_constraints"
  · rw [if_pos t15]
    exact ⟨_, rfl, rfl⟩
  rw [if_neg t15]
  by_cases t16 : logic = "us_stable"
  · rw [if_pos t16]
    exact ⟨_, rfl, rfl⟩
  rw [if_neg t16]
  exact ⟨_, rfl, rfl⟩
  intro logic params h
  simp only [calculatePriceEffects]
  by_cases t1 : logic = "demand_growth"
  · exact absurd (by rw [t1]; decide) h
  rw [if_neg t1]
  by_cases t2 : logic = "apac_growth"
  · exact absurd (by rw [t2]; decide) h
  rw [if_neg t2]
  by_cases t3 : logic = "bio_adoption"
  · exact absurd (by rw [t3]; decide) h
  rw [if_neg t3]
  by_cases t4 : logic = "epoxy_demand"
  · exact absurd (by rw [t4]; decide) h
  rw [if_neg t4]
  by_cases t5 : logic = "feedstock_shift"
  · exact absurd (by rw [t5]; decide) h
  rw [if_neg t5]
  by_cases t6 : logic = "eu_regulatory"
  · exact absurd (by rw [t6]; decide) h
  rw [if_neg t6]
  by_cases t7 : logic = "asian_advantage"
  · exact absurd (by rw [t7]; decide) h
  rw [if_neg t7]
  by_cases t8 : logic = "plant_shutdown"
  · exact absurd (by rw [t8]; decide) h
  rw [if_neg t8]
  by_cases t9 : logic = "supply_disruption"
  · exact absurd (by rw [t9]; decide) h
  rw [if_neg t9]
  by_cases t10 : logic = "capacity_expansion"
  · exact absurd (by rw [t10]; decide) h
  rw [if_neg t10]
  by_cases t11 : logic = "americas_stability"
  · exact absurd (by rw [t11]; decide) h
  rw [if_neg t11]
  by_cases t12 : logic = "europe_elevation"
  · exact absurd (by rw [t12]; decide) h
  rw [if_neg t12]
  by_cases t13 : logic = "apac_pressure"
  · exact absurd (by rw [t13]; decide) h
  rw [if_neg t13]
  by_cases t14 : logic = "asian_undercut"
  · exact absurd (by rw [t14]; decide) h
  rw [if_neg t14]
  by_cases t15 : logic = "eu_constraints"
  · exact absurd (by rw [t15]; decide) h
  rw [if_neg t15]
  by_cases t16 : logic = "us_stable"
  · exact absurd (by rw [t16]; decide) h
  rw [if_neg t16]
  rfl

/-- C5 counterexample: the resolved parameter set obtained by overriding
`supply_disruption`-style defaults with `duration_months = 0` makes
`recovery / (duration * 2)` a division by zero, so the effect
calculation raises instead of returning a four-region mapping of finite
floats. -/
theorem effect_vector_division_error :
    calculatePriceEffects "supply_disruption"
      (resolveParams
        [("disruption_severity", PVal.num (2/10)), ("recovery_months", PVal.num 4),
         ("duration_months", PVal.num 8)]
        [("duration_months", PVal.num 0)]) = none := by
  simp +decide [resolveParams, setKey, getVal, calculatePriceEffects, logic_supply_disruption,
    getNum, qdiv]

/-- Witness for C5 at a concrete input: the EU regulatory scenario with
its catalog defaults produces a mapping over exactly the four canonical
regions. -/
theorem effect_vector_four_regions_witness :
    (calculatePriceEffects "eu_regulatory" scenario6Params).map (List.map Prod.fst) =
      some regions := by
  obtain ⟨v, hv, hk⟩ := effect_vector_four_regions.1 "eu_regulatory" scenario6Params
    (fun h => absurd h (by decide)) (fun h => absurd h (by decide))
  rw [hv, Option.map_some', hk]

lemma not_in_ramp_of_end_le {duration : ℚ} {s t i : ℕ} (hsi : s ≤ i) (hit : i < t)
    (he : min ((s : ℚ) + duration) (t : ℚ) ≤ (i : ℚ)) :
    ¬ (i : ℤ) < (s : ℤ) + min 6 ⌊duration / 3⌋ := by
  rcases le_or_lt 0 duration with hd | hd
  · have ht : (i : ℚ) < (t : ℚ) := by exact_mod_cast hit
    have hmin : min ((s : ℚ) + duration) (t : ℚ) = (s : ℚ) + duration := by
      rcases min_cases ((s : ℚ) + duration) (t : ℚ) with ⟨h, _⟩ | ⟨h, _⟩
      · exact h
      · exfalso; rw [h] at he; linarith
    rw [hmin] at he
    have h1 : ((min 6 ⌊duration / 3⌋ : ℤ) : ℚ) ≤ duration := by
      have h2 : ((min 6 ⌊duration / 3⌋ : ℤ) : ℚ) ≤ ((⌊duration / 3⌋ : ℤ) : ℚ) := by
        exact_mod_cast min_le_right 6 ⌊duration / 3⌋
      have h3 : ((⌊duration / 3⌋ : ℤ) : ℚ) ≤ duration / 3 := Int.floor_le _
      linarith
    intro hcon
    have h4 : (i : ℚ) < (s : ℚ) + ((min 6 ⌊duration / 3⌋ : ℤ) : ℚ) := by exact_mod_cast hcon
    linarith
  · have h1 : ⌊duration / 3⌋ ≤ -1 := by
      have h2 : ((⌊duration / 3⌋ : ℤ) : ℚ) ≤ duration / 3 := Int.floor_le _
      have h3 : duration / 3 < 0 := by linarith
      have h4 : ⌊duration / 3⌋ < 0 := by exact_mod_cast lt_of_le_of_lt h2 h3
      omega
    intro hcon
    have h2 : min (6 : ℤ) ⌊duration / 3⌋ ≤ -1 := le_trans (min_le_right _ _) h1
    have hsi' : (s : ℤ) ≤ (i : ℤ) := by exact_mod_cast hsi
    omega

lemma plateau_dur6 {effect : ℚ} {s t i : ℕ} (h2 : s + 2 ≤ i) (h6 : i ≤ s + 6)
    (ht : s + 6 < t) : currentEffect effect 6 s t i = effect := by
  have hramp : min (6 : ℤ) ⌊(6 : ℚ) / 3⌋ = 2 := by norm_num
  have hmin : min ((s : ℚ) + 6) (t : ℚ) = (s : ℚ) + 6 := by
    apply min_eq_left
    exact_mod_cast Nat.le_of_lt ht
  rcases lt_or_eq_of_le h6 with hlt | heq
  · apply currentEffect_of_plateau
    · rw [hramp]; omega
    · rw [hmin]; exact_mod_cast hlt
  · subst heq
    rw [currentEffect_of_decay (by rw [hramp]; push_cast; omega)
      (by rw [hmin]; push_cast; norm_num), hmin]
    push_cast
    rw [sub_self, zero_div]
    norm_num

lemma decay_after_dur6 {effect : ℚ} {s t : ℕ} (heff : 0 < effect) (ht : s + 7 < t) :
    currentEffect effect 6 s t (s + 7) < effect := by
  have hramp : min (6 : ℤ) ⌊(6 : ℚ) / 3⌋ = 2 := by norm_num
  have hmin : min ((s : ℚ) + 6) (t : ℚ) = (s : ℚ) + 6 := by
    apply min_eq_left
    have h7 : s + 6 ≤ t := by omega
    exact_mod_cast h7
  rw [currentEffect_of_decay (by rw [hramp]; push_cast; omega)
    (by rw [hmin]; push_cast; linarith), hmin]
  push_cast
  have h1 : ((s : ℚ) + 7 - ((s : ℚ) + 6)) = 1 := by ring
  rw [h1]
  have h2 : min ((1 : ℚ) / 12) 1 = 1/12 := min_eq_left (by norm_num)
  rw [h2]
  nlinarith

/-- C1: the simulated series applies the terminal effect through the
three-phase envelope over period index `i`, with
`start = floor(0.2 * total_periods) = total/5` and
`ramp = min(6, duration_months // 3)`: linear ramp on
`start ≤ i < start + ramp`, the full effect on `start + ramp ≤ i < end`
with `end = min(start + duration, total)`, and
`effect * (1 - min((i-end)/12, 1) * 0.4)` for `end ≤ i < total`.  With
`duration_months = 6` the ramp is 2 periods, the full effect holds on
the plateau from `start + 2` through `start + 6`, and it decays after
`start + 6`. -/
theorem three_phase_envelope :
    (∀ (effect duration : ℚ) (total i : ℕ),
      total / 5 ≤ i → (i : ℤ) < ((total / 5 : ℕ) : ℤ) + min 6 ⌊duration / 3⌋ →
      currentEffect effect duration (total / 5) total i =
        effect * (((i : ℚ) - ((total / 5 : ℕ) : ℚ) + 1) / ((min 6 ⌊duration / 3⌋ : ℤ) : ℚ))) ∧
    (∀ (effect duration : ℚ) (total i : ℕ),
      ((total / 5 : ℕ) : ℤ) + min 6 ⌊duration / 3⌋ ≤ (i : ℤ) →
      (i : ℚ) < min (((total / 5 : ℕ) : ℚ) + duration) (total : ℚ) →
      currentEffect effect duration (total / 5) total i = effect) ∧
    (∀ (effect duration : ℚ) (total i : ℕ),
      total / 5 ≤ i → i < total →
      min (((total / 5 : ℕ) : ℚ) + duration) (total : ℚ) ≤ (i : ℚ) →
      currentEffect effect duration (total / 5) total i =
        effect * (1 - min (((i : ℚ) - min (((total / 5 : ℕ) : ℚ) + duration) (total : ℚ)) / 12) 1
          * (4/10))) ∧
    (min (6 : ℤ) ⌊(6 : ℚ) / 3⌋ = 2 ∧
     (∀ (effect : ℚ) (total i : ℕ),
       total / 5 + 2 ≤ i → i ≤ total / 5 + 6 → total / 5 + 6 < total →
       currentEffect effect 6 (total / 5) total i = effect) ∧
     (∀ (effect : ℚ) (total : ℕ), 0 < effect → total / 5 + 7 < total →
       currentEffect effect 6 (total / 5) total (total / 5 + 7) < effect)) := by
  refine ⟨?_, ?_, ?_, by norm_num, ?_, ?_⟩
  · intro effect duration total i _ hr
    exact currentEffect_of_ramp hr
  · intro effect duration total i h1 h2
    exact currentEffect_of_plateau (not_lt.mpr h1) h2
  · intro effect duration total i h1 h2 h3
    exact currentEffect_of_decay (not_in_ramp_of_end_le h1 h2 h3) (not_lt.mpr h3)
  · intro effect total i h2 h6 ht
    exact plateau_dur6 h2 h6 ht
  · intro effect total heff ht
    exact decay_after_dur6 heff ht

/-- Witness for C1 at concrete inputs (`total_periods = 40`, so
`start = 8`): the ramp value at `i = 8`, the plateau at `i = 10` and at
`i = 14 = start + 6`, and strict decay at `i = 15 = start + 7`. -/
theorem three_phase_envelope_witness :
    currentEffect 1 6 (40 / 5) 40 8 =
      1 * (((8 : ℚ) - ((40 / 5 : ℕ) : ℚ) + 1) / ((min 6 ⌊(6 : ℚ) / 3⌋ : ℤ) : ℚ)) ∧
    currentEffect 1 6 (40 / 5) 40 10 = 1 ∧
    currentEffect 1 6 (40 / 5) 40 (40 / 5 + 6) = 1 ∧
    currentEffect 1 6 (40 / 5) 40 (40 / 5 + 7) < 1 :=
  ⟨three_phase_envelope.1 1 6 40 8 (by decide) (by norm_num),
   three_phase_envelope.2.2.2.2.1 1 40 10 (by decide) (by decide) (by decide),
   three_phase_envelope.2.2.2.2.1 1 40 (40 / 5 + 6) (by decide) (by decide) (by decide),
   three_phase_envelope.2.2.2.2.2 1 40 (by norm_num) (by decide)⟩

lemma applyEffectsRegionGo_getD (effect duration : ℚ) (s t : ℕ) (noise : ℕ → ℚ) :
    ∀ (l : List ℚ) (j i : ℕ), i < l.length →
      (applyEffectsRegionGo effect duration s t noise j l).getD i 0 =
        if j + i < s then l.getD i 0
        else l.getD i 0 * (1 + currentEffect effect duration s t (j + i) + noise (j + i - s)) := by
  intro l
  induction l with
  | nil => intro j i h; simp at h
  | cons x rest ih =>
    intro j i h
    cases i with
    | zero => simp [applyEffectsRegionGo]
    | succ n =>
      have hn : n < rest.length := by simpa using h
      simp only [applyEffectsRegionGo, List.getD_cons_succ]
      rw [ih (j + 1) n hn]
      have hj : j + 1 + n = j + (n + 1) := by omega
      rw [hj]

lemma applyEffectsRegion_getD (effect duration : ℚ) (s t : ℕ) (noise : ℕ → ℚ)
    (b : List ℚ) (i : ℕ) (h : i < b.length) :
    (applyEffectsRegion effect duration s t noise b).getD i 0 =
      if i < s then b.getD i 0
      else b.getD i 0 * (1 + currentEffect effect duration s t i + noise (i - s)) := by
  have h0 := applyEffectsRegionGo_getD effect duration s t noise b 0 i h
  simpa using h0

/-- C2 (amended): periods before `start` are returned exactly as the
baseline — no noise is drawn for them; from `start` on, each period's
value is `baseline[i] * (1 + phase_effect(i) + noise(i-start))`, where
the noise stream is `0.008` times the unit-normal draws of the
generator seeded from the hash of the resolved parameter set (shown
for a one-region price table; further regions continue the same
stream). -/
theorem noise_from_start_only :
    (∀ (effect duration : ℚ) (s t : ℕ) (noise : ℕ → ℚ) (b : List ℚ) (i : ℕ),
      i < b.length → i < s →
      (applyEffectsRegion effect duration s t noise b).getD i 0 = b.getD i 0) ∧
    (∀ (effect duration : ℚ) (s t : ℕ) (noise : ℕ → ℚ) (b : List ℚ) (i : ℕ),
      i < b.length → s ≤ i →
      (applyEffectsRegion effect duration s t noise b).getD i 0 =
        b.getD i 0 * (1 + currentEffect effect duration s t i + noise (i - s))) ∧
    (∀ (g : ℕ → ℕ → ℚ) (pyHashAbs : Params → ℕ) (b : List ℚ) (effects : EffectVec)
      (params : Params) (r0 : RngState) (total : ℕ),
      (applyEffects g pyHashAbs [("us_ech", b)] total effects params r0).1 =
        [("us_ech", applyEffectsRegion ((getVal "us_ech" effects).getD 0)
            (getNum params "duration_months" 12) (total / 5) total
            (fun k => (8/1000) * g (seedOf pyHashAbs params) k) b)]) := by
  refine ⟨?_, ?_, ?_⟩
  · intro effect duration s t noise b i hlen his
    rw [applyEffectsRegion_getD effect duration s t noise b i hlen, if_pos his]
  · intro effect duration s t noise b i hlen his
    rw [applyEffectsRegion_getD effect duration s t noise b i hlen, if_neg (not_lt.mpr his)]
  · intro g pyHashAbs b effects params r0 total
    simp +decide [applyEffects, applyEffectsLoop, regions, getVal, seedOf]

/-- C2 counterexample: with `start = 2` the simulated value at period 0
equals the baseline exactly — the claimed form
`baseline[0] * (1 + 0 + noise(0))` fails for any nonzero noise draw
(here the noise stream is constantly `1/100`), because the loop never
draws noise for pre-start periods. -/
theorem noise_every_period_counterexample :
    (applyEffectsRegion (1/10) 12 2 10 (fun _ => 1/100)
      [100, 100, 100, 100, 100, 100, 100, 100, 100, 100]).getD 0 0 = 100 ∧
    (100 : ℚ) * (1 + 0 + 1/100) ≠ 100 := by
  constructor
  · simp [applyEffectsRegion, applyEffectsRegionGo]
  · norm_num

/-- Witness for C2's amended statement at concrete inputs: period 0 is
untouched and period 2 (= start) carries phase effect plus noise. -/
theorem noise_from_start_only_witness :
    (applyEffectsRegion (1/10) 12 2 10 (fun _ => 1/100)
      [100, 100, 100, 100, 100, 100, 100, 100, 100, 100]).getD 0 0 =
      ([100, 100, 100, 100, 100, 100, 100, 100, 100, 100] : List ℚ).getD 0 0 ∧
    (applyEffectsRegion (1/10) 12 2 10 (fun _ => 1/100)
      [100, 100, 100, 100, 100, 100, 100, 100, 100, 100]).getD 2 0 =
      ([100, 100, 100, 100, 100, 100, 100, 100, 100, 100] : List ℚ).getD 2 0 *
        (1 + currentEffect (1/10) 12 2 10 2 + 1/100) :=
  ⟨noise_from_start_only.1 (1/10) 12 2 10 (fun _ => 1/100)
      [100, 100, 100, 100, 100, 100, 100, 100, 100, 100] 0 (by decide) (by decide),
   noise_from_start_only.2.1 (1/10) 12 2 10 (fun _ => 1/100)
      [100, 100, 100, 100, 100, 100, 100, 100, 100, 100] 2 (by decide) (by decide)⟩

/-- C4: two runs with identical `(scenario_id, custom_params)` against
the same engine state (catalog, baseline, hash salt, generator family)
produce identical simulated prices and identical forecasts, regardless
of the NumPy generator state `r0`/`r1` inherited from earlier calls:
`_apply_effects` re-seeds from the resolved parameter set and the
fallback forecast re-seeds to 42, so the inherited state is dead. -/
theorem apply_scenario_deterministic :
    ∀ (g : ℕ → ℕ → ℚ) (sqrtQ : ℚ → ℚ) (pyHashAbs : Params → ℕ)
      (catalog : ℕ → Option (String × Params)) (prices : List (String × List ℚ)) (total : ℕ)
      (sid : ℕ) (custom : Params) (r0 r1 : RngState),
      (applyScenarioCore g sqrtQ pyHashAbs catalog prices total sid custom r0).1 =
      (applyScenarioCore g sqrtQ pyHashAbs catalog prices total sid custom r1).1 := by
  intro g sqrtQ pyHashAbs catalog prices total sid custom r0 r1
  have hae : ∀ (effects : EffectVec) (params : Params),
      applyEffects g pyHashAbs prices total effects params r0 =
        applyEffects g pyHashAbs prices total effects params r1 := fun _ _ => rfl
  rcases hc : catalog sid with _ | ⟨logic, defaults⟩
  · simp only [applyScenarioCore, hc]
  · simp only [applyScenarioCore, hc]
    rcases he : calculatePriceEffects logic (resolveParams defaults custom) with _ | effects
    · rfl
    · simp only [hae]

/-- C10 (amended): the ramp division `(i - start + 1) / ramp` is only
reached when `ramp ≥ 1`, so `_apply_effects` never divides by zero for
any duration (the `Option`-valued embedding of the loop body always
succeeds on loop indices `i ≥ start`); and for `0 ≤ duration_months < 3`
there is no ramp phase (`ramp = 0`) and the full effect applies at index
`start`.  (For negative durations index `start` falls in the decay
phase and the effect at `start` is already attenuated: see the
counterexample.) -/
theorem no_ramp_division_error :
    (∀ (effect duration : ℚ) (start total i : ℕ), start ≤ i →
      currentEffectChecked effect duration start total i =
        some (currentEffect effect duration start total i)) ∧
    (∀ (effect : ℚ) (d : ℤ) (start total : ℕ), 0 ≤ d → d < 3 → start < total →
      min (6 : ℤ) ⌊(d : ℚ) / 3⌋ = 0 ∧ currentEffect effect (d : ℚ) start total start = effect) := by
  constructor
  · intro effect duration start total i hsi
    simp only [currentEffectChecked, currentEffect]
    split_ifs with hramp hplat
    · -- `start ≤ i < start + ramp` forces `ramp ≥ 1`, so the divisor is nonzero
      have h1 : (0 : ℤ) < min 6 ⌊duration / 3⌋ := by omega
      have h2 : ((min 6 ⌊duration / 3⌋ : ℤ) : ℚ) ≠ 0 := by
        exact_mod_cast ne_of_gt h1
      simp only [qdiv, if_neg h2, Option.map_some']
    · rfl
    · rfl
  · intro effect d start total h0 h3 hst
    have hst' : (start : ℚ) < (total : ℚ) := by exact_mod_cast hst
    have hfloor : ⌊(d : ℚ) / 3⌋ = 0 := by
      interval_cases d <;> norm_num
    have hramp : min (6 : ℤ) ⌊(d : ℚ) / 3⌋ = 0 := by rw [hfloor]; decide
    refine ⟨hramp, ?_⟩
    have hnr : ¬ ((start : ℤ) < (start : ℤ) + min 6 ⌊(d : ℚ) / 3⌋) := by
      rw [hramp]; omega
    rcases eq_or_lt_of_le h0 with h | hpos
    · have hd0 : ((d : ℤ) : ℚ) = 0 := by exact_mod_cast h.symm
      have hmin : min ((start : ℚ) + (d : ℚ)) (total : ℚ) = (start : ℚ) := by
        rw [hd0, add_zero]; exact min_eq_left hst'.le
      rw [currentEffect_of_decay hnr (by rw [hmin]; exact lt_irrefl _), hmin, sub_self, zero_div]
      norm_num
    · have hd' : (0 : ℚ) < (d : ℚ) := by exact_mod_cast hpos
      have hmin : (start : ℚ) < min ((start : ℚ) + (d : ℚ)) (total : ℚ) :=
        lt_min (by linarith) hst'
      exact currentEffect_of_plateau hnr hmin

/-- C10 counterexample (negative durations): with `duration_months = -1`,
`effect = 1`, `start = 2`, `total_periods = 10`, the loop's first index
`i = start` already falls in the decay phase and the applied effect is
`29/30`, not the full effect `1`. -/
theorem negative_duration_not_full_effect :
    currentEffect 1 (-1) 2 10 2 = 29/30 ∧ (29/30 : ℚ) ≠ 1 := by
  constructor
  · norm_num [currentEffect]
  · norm_num

/-- Witness for C10 at concrete inputs: at `start = 8 ≤ i = 8` the
checked loop body succeeds, and `duration_months = 2` gives ramp 0 and
the full effect at `start`. -/
theorem no_ramp_division_error_witness :
    currentEffectChecked 1 6 8 40 8 = some (currentEffect 1 6 8 40 8) ∧
    (min (6 : ℤ) ⌊((2 : ℤ) : ℚ) / 3⌋ = 0 ∧ currentEffect 1 ((2 : ℤ) : ℚ) 2 10 2 = 1) :=
  ⟨no_ramp_division_error.1 1 6 8 40 8 (le_refl 8),
   no_ramp_division_error.2 1 2 2 10 (by decide) (by decide) (by decide)⟩

lemma listMean_nonneg {l : List ℚ} (h : ∀ x ∈ l, 0 ≤ x) : 0 ≤ listMean l := by
  unfold listMean
  exact div_nonneg (List.sum_nonneg h) (by positivity)

lemma listVar_nonneg (l : List ℚ) : 0 ≤ listVar l := by
  unfold listVar
  apply listMean_nonneg
  intro x hx
  simp only [List.mem_map] at hx
  obtain ⟨y, _, rfl⟩ := hx
  positivity

lemma forecastSteps_bounds (g42 : ℕ → ℚ) (sqrtQ : ℚ → ℚ)
    (hs : ∀ x : ℚ, 0 ≤ x → 0 ≤ sqrtQ x) (meanP std trend : ℚ) (hstd : 0 ≤ std)
    (seasonality : Option (List ℚ)) (lastIdx : ℕ) :
    ∀ (m i : ℕ) (current : ℚ) (e : ℚ × ℚ × ℚ),
      e ∈ forecastSteps g42 sqrtQ meanP std trend seasonality lastIdx m i current →
      e.2.1 ≤ e.1 ∧ e.1 ≤ e.2.2 := by
  intro m
  induction m with
  | zero => intro i current e he; simp [forecastSteps] at he
  | succ n ih =>
    intro i current e he
    simp only [forecastSteps, List.mem_cons] at he
    rcases he with he | he
    · subst he
      have hu : 0 ≤ std * sqrtQ ((i : ℚ) + 1) * (2/10) :=
        mul_nonneg (mul_nonneg hstd (hs _ (by positivity))) (by norm_num)
      constructor
      · exact pyRound_mono 4 (by linarith)
      · exact pyRound_mono 4 (by linarith)
    · exact ih (i + 1) _ e he

lemma forecastSteps_length (g42 : ℕ → ℚ) (sqrtQ : ℚ → ℚ) (meanP std trend : ℚ)
    (seasonality : Option (List ℚ)) (lastIdx : ℕ) :
    ∀ (m i : ℕ) (current : ℚ),
      (forecastSteps g42 sqrtQ meanP std trend seasonality lastIdx m i current).length = m := by
  intro m
  induction m with
  | zero => intro i current; rfl
  | succ n ih =>
    intro i current
    simp only [forecastSteps, List.length_cons]
    rw [ih (i + 1)]

/-- C6: forecast interval bounds satisfy
`lower_95[i] ≤ point[i] ≤ upper_95[i]` for every region entry: the
heuristic fallback builds bounds as `point ± 1.96 * uncertainty` with
`uncertainty = std * sqrt(i+1) * 0.2 ≥ 0` before monotone 4-digit
rounding; and the Prophet branch's own post-processing (tail + 4-digit
rounding) preserves any ordered `yhat_lower ≤ yhat ≤ yhat_upper` rows
the fitted model produces. -/
theorem forecast_interval_invariant :
    (∀ (g42 : ℕ → ℚ) (sqrtQ : ℚ → ℚ), (∀ x : ℚ, 0 ≤ x → 0 ≤ sqrtQ x) →
      ∀ (prices : List ℚ) (months : ℕ) (e : ℚ × ℚ × ℚ),
        e ∈ simpleForecastRegion g42 sqrtQ prices months →
        e.2.1 ≤ e.1 ∧ e.1 ≤ e.2.2) ∧
    (∀ (rows : List (ℚ × ℚ × ℚ)) (months : ℕ),
      (∀ r ∈ rows, r.2.1 ≤ r.1 ∧ r.1 ≤ r.2.2) →
      ∀ e ∈ prophetExtractRegion rows months, e.2.1 ≤ e.1 ∧ e.1 ≤ e.2.2) := by
  constructor
  · intro g42 sqrtQ hs prices months e he
    simp only [simpleForecastRegion] at he
    have hstd : 0 ≤ sqrtQ (listVar prices) := hs _ (listVar_nonneg prices)
    exact forecastSteps_bounds g42 sqrtQ hs _ _ _ hstd _ _ months 0 _ e he
  · intro rows months hrows e he
    simp only [prophetExtractRegion, List.mem_map] at he
    obtain ⟨r, hr, rfl⟩ := he
    have hr2 := hrows r (List.drop_subset _ _ hr)
    exact ⟨pyRound_mono 4 hr2.1, pyRound_mono 4 hr2.2⟩

/-- Witness for C6 at concrete inputs: a one-point history under the
fallback strategy, and one ordered Prophet row. -/
theorem forecast_interval_invariant_witness :
    (((1 : ℚ), (1 : ℚ), (1 : ℚ)) ∈ simpleForecastRegion (fun _ => 0) (fun _ => 0) [1] 1 ∧
      ((1 : ℚ), (1 : ℚ), (1 : ℚ)).2.1 ≤ ((1 : ℚ), (1 : ℚ), (1 : ℚ)).1 ∧
      ((1 : ℚ), (1 : ℚ), (1 : ℚ)).1 ≤ ((1 : ℚ), (1 : ℚ), (1 : ℚ)).2.2) ∧
    (((2 : ℚ), (1 : ℚ), (3 : ℚ)) ∈ prophetExtractRegion [(2, 1, 3)] 1 ∧
      ((2 : ℚ), (1 : ℚ), (3 : ℚ)).2.1 ≤ ((2 : ℚ), (1 : ℚ), (3 : ℚ)).1 ∧
      ((2 : ℚ), (1 : ℚ), (3 : ℚ)).1 ≤ ((2 : ℚ), (1 : ℚ), (3 : ℚ)).2.2) := by
  have hmem1 : ((1 : ℚ), (1 : ℚ), (1 : ℚ)) ∈
      simpleForecastRegion (fun _ => 0) (fun _ => 0) [1] 1 := by
    norm_num [simpleForecastRegion, forecastSteps, estimateSeasonality, lastN, listMean,
      listVar, pyRound, rhe]
  have hmem2 : ((2 : ℚ), (1 : ℚ), (3 : ℚ)) ∈ prophetExtractRegion [(2, 1, 3)] 1 := by
    norm_num [prophetExtractRegion, pyRound, rhe]
  exact ⟨⟨hmem1, forecast_interval_invariant.1 (fun _ => 0) (fun _ => 0)
      (fun x _ => le_refl 0) [1] 1 _ hmem1⟩,
    ⟨hmem2, forecast_interval_invariant.2 [(2, 1, 3)] 1 (by norm_num) _ hmem2⟩⟩

/-- C9: both strategies produce exactly `horizon_months` entries per
region, and the `dates` array has the same length with i-th entry the
last historical date advanced by `i+1` whole calendar months
(`relativedelta`-style, day clamped to the target month's length). -/
theorem forecast_horizon_and_dates :
    (∀ (g42 : ℕ → ℚ) (sqrtQ : ℚ → ℚ) (prices : List ℚ) (months : ℕ),
      (simpleForecastRegion g42 sqrtQ prices months).length = months) ∧
    (∀ (lastDate : Date) (months : ℕ),
      (forecastDates lastDate months).length = months ∧
      ∀ i, i < months →
        (forecastDates lastDate months)[i]? = some (addMonths lastDate (i + 1))) ∧
    (∀ (rows : List (ℚ × ℚ × ℚ)) (total months : ℕ), rows.length = total + months →
      (prophetExtractRegion rows months).length = months) := by
  refine ⟨?_, ?_, ?_⟩
  · intro g42 sqrtQ prices months
    simp only [simpleForecastRegion]
    exact forecastSteps_length _ _ _ _ _ _ _ months 0 _
  · intro lastDate months
    constructor
    · simp [forecastDates]
    · intro i hi
      simp [forecastDates, List.getElem?_map, List.getElem?_range, hi]
  · intro rows total months h
    simp only [prophetExtractRegion, List.length_map, List.length_drop]
    omega

/-- Witness for C9 at concrete inputs: two forecast dates from
2024-12-31, and a two-row Prophet output with a one-month horizon. -/
theorem forecast_horizon_and_dates_witness :
    (forecastDates ⟨2024, 12, 31⟩ 2)[0]? = some (addMonths ⟨2024, 12, 31⟩ 1) ∧
    (prophetExtractRegion [(2, 1, 3), (5, 4, 6)] 1).length = 1 :=
  ⟨(forecast_horizon_and_dates.2.1 ⟨2024, 12, 31⟩ 2).2 0 (by decide),
   forecast_horizon_and_dates.2.2 [(2, 1, 3), (5, 4, 6)] 1 1 (by decide)⟩

end ECH
